import Mathlib

/-!
Verification development for the UCP analytics engine: a shallow embedding of
the response classifier (`UCPResponseParser.classify`), the field extractor
(`UCPResponseParser.extract`), the event record (`UCPEvent.to_bq_row`), and the
buffered writer (`AsyncBigQueryWriter.enqueue` / `flush`), together with
theorems settling the specification claims about them.

JSON values are modelled by the inductive `JVal`; Python `None` is `JVal.null`,
Python dicts are ordered association lists (`JObj`).  Numbers are modelled as
integers (the amounts handled by the code are minor-currency-unit integers).
Fallible operations (Python exceptions) are modelled with `Option`/`Except`.
-/

/-- A JSON-like Python value: None, bool, number, string, list, dict. -/
inductive JVal where
  | null : JVal
  | bool (b : Bool) : JVal
  | num (n : Int) : JVal
  | str (s : String) : JVal
  | arr (items : List JVal) : JVal
  | obj (fields : List (String × JVal)) : JVal

/-- A Python dict with string keys, as an ordered association list. -/
abbrev JObj := List (String × JVal)

/-- First value bound to key `k`, if any (Python `d[k]` / `k in d`). -/
def dGet? (d : JObj) (k : String) : Option JVal :=
  (d.find? (fun p => p.1 == k)).map Prod.snd

/-- Python `k in d`. -/
def hasKey (d : JObj) (k : String) : Bool :=
  d.any (fun p => p.1 == k)

/-- Python `d.get(k)` (defaulting to `None`). -/
def jGet (d : JObj) (k : String) : JVal :=
  (dGet? d k).getD .null

/-- Python `d.get(k, default)`. -/
def jGetD (d : JObj) (k : String) (default : JVal) : JVal :=
  (dGet? d k).getD default

/-- Python `d[k] = v`: replace the value at the key's existing position,
else append the binding at the end. -/
def dictSet : JObj → String → JVal → JObj
  | [], k, v => [(k, v)]
  | (k', v') :: rest, k, v =>
    if k' == k then (k, v) :: rest else (k', v') :: dictSet rest k v

/-- Python truthiness of a JSON value. -/
def pyTruthy : JVal → Bool
  | .null => false
  | .bool b => b
  | .num n => !(n == 0)
  | .str s => !(s == "")
  | .arr items => !items.isEmpty
  | .obj fields => !fields.isEmpty

/-- Python `a or b`. -/
def pyOr (a b : JVal) : JVal := if pyTruthy a then a else b

/-- Is the value Python `None`? -/
def isNull : JVal → Bool
  | .null => true
  | _ => false

/-- Is the value a Python dict? -/
def isObjB : JVal → Bool
  | .obj _ => true
  | _ => false

/-- Does the value equal the given Python string (`v == "s"`)? -/
def isStrv (v : JVal) (s : String) : Bool :=
  match v with
  | .str t => t == s
  | _ => false

mutual
/-- Python `str(v)`. -/
def pyStr : JVal → String
  | .null => "None"
  | .bool true => "True"
  | .bool false => "False"
  | .num n => toString n
  | .str s => s
  | .arr items => "[" ++ pyReprList items ++ "]"
  | .obj fields => "\x7b" ++ pyReprObj fields ++ "\x7d"

/-- Python `repr(v)` (string quoting is rendered with `\x27`). -/
def pyRepr : JVal → String
  | .null => "None"
  | .bool true => "True"
  | .bool false => "False"
  | .num n => toString n
  | .str s => "\x27" ++ s ++ "\x27"
  | .arr items => "[" ++ pyReprList items ++ "]"
  | .obj fields => "\x7b" ++ pyReprObj fields ++ "\x7d"

/-- Comma-separated reprs of list elements. -/
def pyReprList : List JVal → String
  | [] => ""
  | [x] => pyRepr x
  | x :: y :: rest => pyRepr x ++ ", " ++ pyReprList (y :: rest)

/-- Comma-separated `key: value` reprs of dict entries. -/
def pyReprObj : List (String × JVal) → String
  | [] => ""
  | [(k, v)] => "\x27" ++ k ++ "\x27: " ++ pyRepr v
  | (k, v) :: q :: rest =>
    "\x27" ++ k ++ "\x27: " ++ pyRepr v ++ ", " ++ pyReprObj (q :: rest)
end

mutual
/-- Python `json.dumps(v, default=str)` with the default separators. -/
def jsonDumps : JVal → String
  | .null => "null"
  | .bool true => "true"
  | .bool false => "false"
  | .num n => toString n
  | .str s => "\x22" ++ s ++ "\x22"
  | .arr items => "[" ++ jsonDumpsList items ++ "]"
  | .obj fields => "\x7b" ++ jsonDumpsObj fields ++ "\x7d"

/-- Comma-separated JSON renderings of list elements. -/
def jsonDumpsList : List JVal → String
  | [] => ""
  | [x] => jsonDumps x
  | x :: y :: rest => jsonDumps x ++ ", " ++ jsonDumpsList (y :: rest)

/-- Comma-separated JSON renderings of dict entries. -/
def jsonDumpsObj : List (String × JVal) → String
  | [] => ""
  | [(k, v)] => "\x22" ++ k ++ "\x22: " ++ jsonDumps v
  | (k, v) :: q :: rest =>
    "\x22" ++ k ++ "\x22: " ++ jsonDumps v ++ ", " ++ jsonDumpsObj (q :: rest)
end

/-! ## String utilities (Python string/regex operations used by the classifier) -/

/-- Is `pat` a prefix of `l` (character lists)? -/
def isPrefixB : List Char → List Char → Bool
  | [], _ => true
  | _ :: _, [] => false
  | a :: as, b :: bs => a == b && isPrefixB as bs

/-- Does `pat` occur as a contiguous run inside `l`? -/
def infixOfB (pat : List Char) : List Char → Bool
  | [] => pat.isEmpty
  | c :: rest => isPrefixB pat (c :: rest) || infixOfB pat rest

/-- Python `pat in s` (substring test). -/
def strContains (s pat : String) : Bool := infixOfB pat.data s.data

/-- Python `s.endswith(suf)`. -/
def strEndsWith (s suf : String) : Bool :=
  isPrefixB suf.data.reverse s.data.reverse

/-- Python `s.startswith(pre)`. -/
def strStartsWith (s pre : String) : Bool := isPrefixB pre.data s.data

/-- Python `path.rstrip("/")`: drop all trailing slashes. -/
def pyRstripSlash (s : String) : String :=
  String.mk ((s.data.reverse.dropWhile (fun c => c == '/')).reverse)

/-- Python `method.upper()`. -/
def pyUpper (s : String) : String := String.mk (s.data.map Char.toUpper)

/-- Split a character list on `'/'`. -/
def splitSlash : List Char → List Char → List (List Char)
  | [], acc => [acc.reverse]
  | c :: rest, acc =>
    if c == '/' then acc.reverse :: splitSlash rest []
    else splitSlash rest (c :: acc)

/-- Python `s.split("/")`. -/
def splitSegs (s : String) : List String :=
  (splitSlash s.data []).map (fun l => String.mk l)

/-- One path-segment pattern: a literal segment, or `[^/]+` (any nonempty
slash-free segment). -/
inductive SegPat where
  | lit (s : String) : SegPat
  | one : SegPat

/-- Does the segment satisfy the segment pattern? -/
def segPatMatch : SegPat → String → Bool
  | .lit s, t => s == t
  | .one, t => !(t == "")

/-- Do the segments match the patterns elementwise? -/
def segsMatch : List String → List SegPat → Bool
  | [], [] => true
  | t :: ts, p :: ps => segPatMatch p t && segsMatch ts ps
  | _, _ => false

/-- `re.search` of an end-anchored pattern `/p1/p2/.../pn$` against a path:
the last `n` slash-separated segments match `p1..pn`, and at least one
segment precedes them (supplying the leading `/` of the pattern). -/
def segSuffix (q : String) (pat : List SegPat) : Bool :=
  let segs := splitSegs q
  decide (pat.length + 1 ≤ segs.length) &&
    segsMatch (segs.drop (segs.length - pat.length)) pat

/-! ## Path matchers: one per regex in `UCPResponseParser.classify` -/

/-- `p.endswith("/.well-known/ucp")`. -/
def mWellKnown (q : String) : Bool := strEndsWith q "/.well-known/ucp"

/-- `re.search(r"/checkout-sessions/?$", p)`. -/
def mCsRoot (q : String) : Bool :=
  strEndsWith q "/checkout-sessions" || strEndsWith q "/checkout-sessions/"

/-- `re.search(r"/checkout-sessions/[^/]+/complete$", p)`. -/
def mCsComplete (q : String) : Bool :=
  segSuffix q [.lit "checkout-sessions", .one, .lit "complete"]

/-- `re.search(r"/checkout-sessions/[^/]+/cancel$", p)`. -/
def mCsCancel (q : String) : Bool :=
  segSuffix q [.lit "checkout-sessions", .one, .lit "cancel"]

/-- `re.search(r"/checkout-sessions/[^/]+$", p)`. -/
def mCsId (q : String) : Bool := segSuffix q [.lit "checkout-sessions", .one]

/-- `re.search(r"/carts/?$", p)`. -/
def mCartsRoot (q : String) : Bool :=
  strEndsWith q "/carts" || strEndsWith q "/carts/"

/-- `re.search(r"/carts/[^/]+/cancel$", p)`. -/
def mCartsCancel (q : String) : Bool :=
  segSuffix q [.lit "carts", .one, .lit "cancel"]

/-- `re.search(r"/carts/[^/]+$", p)`. -/
def mCartsId (q : String) : Bool := segSuffix q [.lit "carts", .one]

/-- `re.search(r"/orders(?:/[^/]+)?$", p)`. -/
def mOrders (q : String) : Bool :=
  strEndsWith q "/orders" || segSuffix q [.lit "orders", .one]

/-- `re.search(r"/webhooks?/", p)`. -/
def mWebhook (q : String) : Bool :=
  strContains q "/webhook/" || strContains q "/webhooks/"

/-- Scan for consecutive segments `webhooks? / partners / [^/]+ / events /
order...` (the trailing `order` is unanchored, so the fifth segment only has
to start with it). -/
def partnerScan : List String → Bool
  | w :: p :: x :: e :: o :: rest =>
    ((w == "webhook" || w == "webhooks") && p == "partners" &&
      !(x == "") && e == "events" && strStartsWith o "order")
    || partnerScan (p :: x :: e :: o :: rest)
  | _ => false

/-- `re.search(r"/webhooks?/partners/[^/]+/events/order", p)`: the window must
be preceded by at least one segment (the pattern's leading `/`). -/
def mPartnerOrder (q : String) : Bool :=
  match splitSegs q with
  | [] => false
  | _ :: rest => partnerScan rest

/-- `re.search(r"/webhooks?/order[_-]WORD", p)` for a legacy lifecycle word. -/
def mLegacyWebhook (word : String) (q : String) : Bool :=
  strContains q ("/webhook/order_" ++ word) ||
  strContains q ("/webhook/order-" ++ word) ||
  strContains q ("/webhooks/order_" ++ word) ||
  strContains q ("/webhooks/order-" ++ word)

/-- `re.search(r"/(?:identity|oauth)(?:/|$)", p)`. -/
def mIdentityOauth (q : String) : Bool :=
  strContains q "/identity/" || strEndsWith q "/identity" ||
  strContains q "/oauth/" || strEndsWith q "/oauth"

/-! ## Event types (`UCPEventType` in events.py) -/

/-- UCP event types aligned with protocol capabilities and operations. -/
inductive UCPEventType where
  | checkout_session_created
  | checkout_session_get
  | checkout_session_updated
  | checkout_session_completed
  | checkout_session_canceled
  | checkout_escalation
  | cart_created
  | cart_get
  | cart_updated
  | cart_canceled
  | order_created
  | order_updated
  | order_shipped
  | order_delivered
  | order_returned
  | order_canceled
  | identity_link_initiated
  | identity_link_completed
  | identity_link_revoked
  | payment_handler_negotiated
  | payment_instrument_selected
  | payment_completed
  | payment_failed
  | profile_discovered
  | capability_negotiated
  | request
  | error
  deriving DecidableEq, Repr

/-! ## Classifier (`UCPResponseParser.classify`) -/

namespace UCPResponseParser

/-- Lines 57-60: `response_body and response_body.get("status") ==
"requires_escalation"`. -/
def rbEscalation : Option JObj → Bool
  | some l => !l.isEmpty && isStrv (jGet l "status") "requires_escalation"
  | none => false

/-- Lines 86-95: order lifecycle event from the response body status. -/
def orderStatusEvt : Option JObj → UCPEventType
  | some l =>
    if l.isEmpty then .order_updated
    else
      let order_status := jGetD l "status" (.str "")
      if isStrv order_status "delivered" then .order_delivered
      else if isStrv order_status "returned" then .order_returned
      else if isStrv order_status "canceled" || isStrv order_status "cancelled"
        then .order_canceled
      else .order_updated
  | none => .order_updated

/-- Lines 111-121: partner-webhook order event from the chosen body status. -/
def webhookOrderEvt : Option JObj → UCPEventType
  | some l =>
    if l.isEmpty then .order_updated
    else
      let order_status := jGetD l "status" (.str "")
      if isStrv order_status "shipped" then .order_shipped
      else if isStrv order_status "delivered" then .order_delivered
      else if isStrv order_status "returned" then .order_returned
      else if isStrv order_status "canceled" || isStrv order_status "cancelled"
        then .order_canceled
      else .order_updated
  | none => .order_updated

/-- `body and isinstance(body, dict)` for an optional dict. -/
def truthyObj : Option JObj → Bool
  | some l => !l.isEmpty
  | none => false

/-- Derive the UCP event type from the HTTP request + response
(parser.py lines 27-150).  `response_body`/`request_body` are `Optional[dict]`
per the source signature; `none` is Python `None`. -/
def classify (method path : String) (status_code : Int)
    (response_body request_body : Option JObj) : UCPEventType :=
  let m := pyUpper method
  let q := pyRstripSlash path
  if mWellKnown q then .profile_discovered
  else if mCsRoot q && m == "POST" then .checkout_session_created
  else if mCsComplete q && m == "POST" then .checkout_session_completed
  else if mCsCancel q && m == "POST" then .checkout_session_canceled
  else if mCsId q && m == "PUT" then
    (if rbEscalation response_body then .checkout_escalation
     else .checkout_session_updated)
  else if mCsId q && m == "GET" then .checkout_session_get
  else if mCartsRoot q && m == "POST" then .cart_created
  else if mCartsCancel q && m == "POST" then .cart_canceled
  else if mCartsId q && m == "PUT" then .cart_updated
  else if mCartsId q && m == "GET" then .cart_get
  else if mOrders q then
    (if m == "POST" then .order_created else orderStatusEvt response_body)
  else if mWebhook q then
    (if status_code ≠ 0 ∧ 400 ≤ status_code then .error
     else if mPartnerOrder q then
       webhookOrderEvt (if truthyObj request_body then request_body
                        else response_body)
     else if mLegacyWebhook "delivered" q then .order_delivered
     else if mLegacyWebhook "returned" q then .order_returned
     else if mLegacyWebhook "canceled" q then .order_canceled
     else .order_updated)
  else if mIdentityOauth q then
    (if strContains q "/revoke" || m == "DELETE" then .identity_link_revoked
     else if strContains q "/callback" then .identity_link_completed
     else .identity_link_initiated)
  else if strContains q "/simulate-shipping" then .order_shipped
  else if status_code ≠ 0 ∧ 400 ≤ status_code then .error
  else .request

end UCPResponseParser

example : UCPResponseParser.classify "post" "/checkout-sessions" 200 none none
    = .checkout_session_created := by decide
example : UCPResponseParser.classify "GET" "/checkout-sessions/abc/" 404 none
    none = .checkout_session_get := by decide
example : UCPResponseParser.classify "POST"
    "/webhooks/partners/p1/events/order" 200 (some [("status", .str "ok")])
    (some [("id", .str "o1"), ("checkout_id", .str "c1"),
           ("status", .str "shipped")]) = .order_shipped := by decide
example : UCPResponseParser.classify "POST" "/webhooks/orders" 500 none none
    = .order_created := by decide
example : UCPResponseParser.classify "GET" "/nope" 404 none none = .error := by
  decide
example : UCPResponseParser.classify "DELETE" "/identity/revoke" 200 none none
    = .identity_link_revoked := by decide

/-! ## Field extractor (`UCPResponseParser.extract`, parser.py lines 236-354,
with its helper methods).  The inline blocks of `extract` are named `step*`
in source order; the helper methods keep their source names. -/

namespace UCPResponseParser

/-- Lines 248-257: the id / checkout_id heuristic. -/
def stepId (fs : JObj) (r : JObj) : JObj :=
  let raw_id := jGetD fs "id" (.str "")
  let id_str := if pyTruthy raw_id then pyStr raw_id else ""
  if !(id_str == "") then
    if hasKey fs "checkout_id" then
      dictSet (dictSet r "order_id" (.str id_str)) "checkout_session_id"
        (jGet fs "checkout_id")
    else dictSet r "checkout_session_id" (.str id_str)
  else r

/-- Lines 259-260: explicit `order_id` key. -/
def stepOrderIdKey (fs : JObj) (r : JObj) : JObj :=
  if hasKey fs "order_id" then dictSet r "order_id" (jGet fs "order_id") else r

/-- Lines 262-270: order confirmation object nested in a checkout response. -/
def stepOrderObj (fs : JObj) (r : JObj) : JObj :=
  match jGet fs "order" with
  | .obj os =>
    let r1 := if pyTruthy (jGet os "id") then
        dictSet r "order_id" (.str (pyStr (jGet os "id")))
      else r
    if pyTruthy (jGet os "permalink_url") then
      dictSet r1 "permalink_url" (jGet os "permalink_url")
    else r1
  | _ => r

/-- Lines 272-274: `permalink_url` directly on the body. -/
def stepPermalink (fs : JObj) (r : JObj) : JObj :=
  if hasKey fs "permalink_url" then
    dictSet r "permalink_url" (jGet fs "permalink_url")
  else r

/-- The fixed 6-value checkout-status vocabulary (`_CHECKOUT_STATUSES`). -/
def isCheckoutStatus (v : JVal) : Bool :=
  isStrv v "incomplete" || isStrv v "requires_escalation" ||
  isStrv v "ready_for_complete" || isStrv v "complete_in_progress" ||
  isStrv v "completed" || isStrv v "canceled"

/-- Lines 276-286: checkout status, scoped to non-order bodies. -/
def stepStatus (fs : JObj) (r : JObj) : JObj :=
  if hasKey fs "status" then
    if !hasKey fs "checkout_id" then
      let status_val := jGet fs "status"
      if isCheckoutStatus status_val then
        dictSet r "checkout_status" status_val
      else r
    else r
  else r

/-- Lines 288-290: currency. -/
def stepCurrency (fs : JObj) (r : JObj) : JObj :=
  if hasKey fs "currency" then dictSet r "currency" (jGet fs "currency") else r

/-- Loop body of `_extract_totals` (lines 367-389). -/
def totalsFold : List JVal → JObj → JObj
  | [], r => r
  | item :: rest, r =>
    match item with
    | .obj io =>
      let t_type := jGetD io "type" (.str "")
      let amount := jGet io "amount"
      if isNull amount then totalsFold rest r
      else
        let r' :=
          if isStrv t_type "items_discount" then
            dictSet r "items_discount_amount" amount
          else if isStrv t_type "subtotal" then dictSet r "subtotal_amount"
            amount
          else if isStrv t_type "discount" then dictSet r "discount_amount"
            amount
          else if isStrv t_type "fulfillment" then
            dictSet r "fulfillment_amount" amount
          else if isStrv t_type "tax" then dictSet r "tax_amount" amount
          else if isStrv t_type "fee" then dictSet r "fee_amount" amount
          else if isStrv t_type "total" then dictSet r "total_amount" amount
          else r
        totalsFold rest r'
    | _ => totalsFold rest r

/-- Lines 360-389: parse the UCP totals array into amount fields. -/
def extractTotals (totals : JVal) (r : JObj) : JObj :=
  match totals with
  | .arr items => totalsFold items r
  | _ => r

/-- Lines 295-299: line items. -/
def stepLineItems (fs : JObj) (r : JObj) : JObj :=
  match jGet fs "line_items" with
  | .arr items =>
    if items.isEmpty then r
    else
      dictSet (dictSet r "line_item_count" (.num items.length))
        "line_items_json" (.str (jsonDumps (.arr items)))
  | _ => r

/-- Inner loop of `_normalize_registry` over a dict entry's list value. -/
def normEntryList : List JVal → String → List JVal
  | [], _ => []
  | e :: rest, domain_name =>
    match e with
    | .obj eo =>
      .obj (eo.foldl (fun a p => dictSet a p.1 p.2)
        [("name", .str domain_name)]) :: normEntryList rest domain_name
    | _ => normEntryList rest domain_name

/-- Loop of `_normalize_registry` over the object-keyed dict format. -/
def normRegFold : JObj → List JVal
  | [] => []
  | (domain_name, entries) :: rest =>
    match entries with
    | .arr es => normEntryList es domain_name ++ normRegFold rest
    | .obj eo =>
      .obj (eo.foldl (fun a p => dictSet a p.1 p.2)
        [("name", .str domain_name)]) :: normRegFold rest
    | _ => normRegFold rest

/-- Lines 438-463: normalize capabilities to a flat list. -/
def normalizeRegistry (raw : JVal) : List JVal :=
  match raw with
  | .arr l => l
  | .obj d => normRegFold d
  | _ => []

/-- Lines 391-413: the `ucp` metadata envelope. -/
def extractUcpMetadata (ucp_meta : JVal) (r : JObj) : JObj :=
  match ucp_meta with
  | .obj mo =>
    let r1 := dictSet r "ucp_version" (jGet mo "version")
    let caps_raw := jGet mo "capabilities"
    if pyTruthy caps_raw then
      let caps_list := normalizeRegistry caps_raw
      if !caps_list.isEmpty then
        dictSet r1 "capabilities_json" (.str (jsonDumps (.arr caps_list)))
      else r1
    else r1
  | _ => r

/-- Lines 415-436: payment handlers in the discovery profile. -/
def extractDiscoveryPayment (payment : JVal) (r : JObj) : JObj :=
  match payment with
  | .obj po =>
    match jGet po "handlers" with
    | .arr (first :: _) =>
      if !hasKey r "payment_handler_id" then
        match first with
        | .obj fo =>
          dictSet r "payment_handler_id" (pyOr (jGet fo "id") (jGet fo "name"))
        | _ => r
      else r
    | _ => r
  | _ => r

/-- Lines 486-514: the `payment` object part of `_extract_payment`. -/
def extractPaymentObj (payment : JVal) (r : JObj) : JObj :=
  match payment with
  | .obj po =>
    if po.isEmpty then r
    else
      match jGet po "instruments" with
      | .arr (first :: _) =>
        match first with
        | .obj fo =>
          dictSet (dictSet (dictSet r "payment_handler_id"
              (pyOr (jGet fo "handler_id") (jGet fo "id")))
            "payment_instrument_type" (jGet fo "type"))
            "payment_brand" (jGet fo "brand")
        | _ => r
      | _ =>
        match jGet po "handlers" with
        | .arr (first :: _) =>
          match first with
          | .obj fo =>
            dictSet (dictSet (dictSet r "payment_handler_id" (jGet fo "id"))
              "payment_instrument_type" (jGet fo "type"))
              "payment_brand" (jGet fo "brand")
          | _ => r
        | _ =>
          dictSet (dictSet (dictSet r "payment_handler_id"
              (pyOr (jGet po "handler_id") (jGet po "id")))
            "payment_instrument_type" (jGet po "type"))
            "payment_brand" (jGet po "brand")
  | _ => r

/-- Lines 465-514: payment fields from checkout/order responses. -/
def extractPayment (fs : JObj) (r : JObj) : JObj :=
  let payment := pyOr (jGet fs "payment") (.obj [])
  let payment_data := pyOr (jGet fs "payment_data") (.obj [])
  match payment_data with
  | .obj pd =>
    if !pd.isEmpty then
      dictSet (dictSet (dictSet r "payment_handler_id"
          (pyOr (jGet pd "handler_id") (jGet pd "id")))
        "payment_instrument_type" (jGet pd "type"))
        "payment_brand" (jGet pd "brand")
    else extractPaymentObj payment r
  | _ => extractPaymentObj payment r

/-- Lines 516-558: fulfillment fields (checkout methods or order
expectations). -/
def extractFulfillment (fulfillment : JVal) (r : JObj) : JObj :=
  match fulfillment with
  | .obj fo =>
    match jGet fo "methods" with
    | .arr (first :: _) =>
      match first with
      | .obj mo =>
        let r1 := dictSet r "fulfillment_type" (jGet mo "type")
        match jGetD mo "destinations" (.arr []) with
        | .arr (dest :: _) =>
          match dest with
          | .obj dobj =>
            let country := jGet dobj "address_country"
            let country :=
              if !pyTruthy country then
                match jGet dobj "address" with
                | .obj ao => jGet ao "address_country"
                | _ => country
              else country
            dictSet r1 "fulfillment_destination_country" country
          | _ => r1
        | _ => r1
      | _ => r
    | _ =>
      match jGet fo "expectations" with
      | .arr (first :: _) =>
        match first with
        | .obj eo =>
          let r1 := dictSet r "fulfillment_type"
            (pyOr (jGet eo "method_type") (jGet eo "type"))
          match jGet eo "destination" with
          | .obj dobj =>
            dictSet r1 "fulfillment_destination_country"
              (jGet dobj "address_country")
          | _ => r1
        | _ => r
      | _ => r
  | _ => r

/-- Lines 560-575: discount extension fields. -/
def extractDiscounts (discounts : JVal) (r : JObj) : JObj :=
  match discounts with
  | .obj dobj =>
    let r1 := match jGet dobj "codes" with
      | .arr cs =>
        if cs.isEmpty then r
        else dictSet r "discount_codes_json" (.str (jsonDumps (.arr cs)))
      | _ => r
    match jGet dobj "applied" with
    | .arr as =>
      if as.isEmpty then r1
      else dictSet r1 "discount_applied_json" (.str (jsonDumps (.arr as)))
    | _ => r1
  | _ => r

/-- Lines 316-320: checkout metadata. -/
def stepCheckoutMeta (fs : JObj) (r : JObj) : JObj :=
  let r1 := if hasKey fs "expires_at" then
      dictSet r "expires_at" (jGet fs "expires_at")
    else r
  if hasKey fs "continue_url" then
    dictSet r1 "continue_url" (jGet fs "continue_url")
  else r1

/-- Lines 322-333: identity linking fields. -/
def stepIdentity (fs : JObj) (r : JObj) : JObj :=
  let r1 := if hasKey fs "provider" then
      dictSet r "identity_provider" (jGet fs "provider")
    else r
  let r2 := if hasKey fs "scope" then
      dictSet r1 "identity_scope" (jGet fs "scope")
    else r1
  match jGet fs "identity" with
  | .obj io =>
    let r3 := if hasKey io "provider" then
        dictSet r2 "identity_provider" (jGet io "provider")
      else r2
    if hasKey io "scope" then dictSet r3 "identity_scope" (jGet io "scope")
    else r3
  | _ => r2

/-- Lines 339-344: scan for the first error message (then `break`). -/
def firstErrorMsg : List JVal → JObj → JObj
  | [], r => r
  | msg :: rest, r =>
    match msg with
    | .obj mo =>
      if isStrv (jGet mo "type") "error" then
        dictSet (dictSet (dictSet r "error_code" (jGet mo "code"))
          "error_message" (jGet mo "content"))
          "error_severity" (jGet mo "severity")
      else firstErrorMsg rest r
    | _ => firstErrorMsg rest r

/-- Lines 335-344: messages array. -/
def stepMessages (fs : JObj) (r : JObj) : JObj :=
  match jGet fs "messages" with
  | .arr messages =>
    if messages.isEmpty then r
    else
      firstErrorMsg messages
        (dictSet r "messages_json" (.str (jsonDumps (.arr messages))))
  | _ => r

/-- Loop of the links block (lines 348-351). -/
def linksFold : List JVal → JObj → JObj
  | [], r => r
  | link :: rest, r =>
    match link with
    | .obj lo =>
      if isStrv (jGet lo "type") "order" then
        linksFold rest (dictSet r "order_id"
          (pyOr ((dGet? r "order_id").getD .null) (jGet lo "url")))
      else linksFold rest r
    | _ => linksFold rest r

/-- Lines 346-351: order links. -/
def stepLinks (fs : JObj) (r : JObj) : JObj :=
  match jGet fs "links" with
  | .arr links => linksFold links r
  | _ => r

/-- Line 354: `{k: v for k, v in result.items() if v is not None}`. -/
def dropNulls (r : JObj) : JObj := r.filter (fun p => !isNull p.2)

/-- The `result` dict of `extract` right before the final `None`-dropping
comprehension: all blocks of lines 246-351 applied in source order. -/
def extractRaw (fs : JObj) : JObj :=
  let r := stepId fs []
  let r := stepOrderIdKey fs r
  let r := stepOrderObj fs r
  let r := stepPermalink fs r
  let r := stepStatus fs r
  let r := stepCurrency fs r
  let r := extractTotals (jGet fs "totals") r
  let r := stepLineItems fs r
  let r := extractUcpMetadata (jGet fs "ucp") r
  let r := extractDiscoveryPayment (jGet fs "payment") r
  let r := extractPayment fs r
  let r := extractFulfillment (jGet fs "fulfillment") r
  let r := extractDiscounts (jGet fs "discounts") r
  let r := stepCheckoutMeta fs r
  let r := stepIdentity fs r
  let r := stepMessages fs r
  stepLinks fs r

/-- Extract analytics fields from a UCP checkout/order JSON body
(lines 236-354). -/
def extract (body : JVal) : JObj :=
  match body with
  | .obj fs =>
    if fs.isEmpty then []
    else dropNulls (extractRaw fs)
  | _ => []

end UCPResponseParser

example : UCPResponseParser.extract .null = [] := rfl
example : UCPResponseParser.extract (.obj []) = [] := rfl
example : UCPResponseParser.extract (.obj [("payment", .obj [("instruments",
    .arr [.obj [("id", .str "instr_1"), ("handler_id", .str "com.stripe"),
      ("type", .str "card"), ("brand", .str "visa")]])])]) =
    [("payment_handler_id", .str "com.stripe"),
     ("payment_instrument_type", .str "card"),
     ("payment_brand", .str "visa")] := rfl
example : UCPResponseParser.extract (.obj [("id", .str "order_xyz"),
    ("checkout_id", .str "chk_abc"), ("status", .str "shipped"),
    ("permalink_url", .str "u")]) =
    [("order_id", .str "order_xyz"),
     ("checkout_session_id", .str "chk_abc"),
     ("permalink_url", .str "u")] := rfl
example : UCPResponseParser.extract (.obj [("id", .str "chk_123"),
    ("status", .str "completed"),
    ("order", .obj [("id", .str "order_abc"), ("permalink_url", .str "pu")])])
    = [("checkout_session_id", .str "chk_123"),
       ("order_id", .str "order_abc"),
       ("permalink_url", .str "pu"),
       ("checkout_status", .str "completed")] := rfl
example : UCPResponseParser.extract (.obj [("identity",
    .obj [("provider", .str "github"), ("scope", .str "read:user")])]) =
    [("identity_provider", .str "github"),
     ("identity_scope", .str "read:user")] := rfl
example : UCPResponseParser.extract (.obj [("totals", .arr [
    .obj [("type", .str "subtotal"), ("amount", .num 5000)],
    .obj [("type", .str "tax"), ("amount", .num 400)],
    .obj [("type", .str "bogus"), ("amount", .num 1)],
    .obj [("type", .str "total")]])]) =
    [("subtotal_amount", .num 5000), ("tax_amount", .num 400)] := rfl
example : UCPResponseParser.extract (.obj [("ucp", .obj [
    ("version", .str "2026-01-11"),
    ("capabilities", .obj [("dev.ucp.shopping.checkout",
      .arr [.obj [("version", .str "2026-01-11")]])])])]) =
    [("ucp_version", .str "2026-01-11"),
     ("capabilities_json", .str
      "[\x7b\x22name\x22: \x22dev.ucp.shopping.checkout\x22, \x22version\x22: \x222026-01-11\x22\x7d]")]
    := rfl

/-! ## Event record (`UCPEvent` in events.py) -/

/-- A value stored in a BigQuery row: the types that occur among `UCPEvent`
fields (strings, integers, floats). -/
inductive BQVal where
  | str (s : String) : BQVal
  | int (n : Int) : BQVal
  | float (x : Float) : BQVal

/-- A single UCP analytics event row (events.py lines 82-168).  Mandatory
dataclass fields are plain; `Optional` fields are `Option`.  The defaults
mirror the dataclass defaults, except that the `uuid`/`datetime` factory
defaults for `event_id` and `timestamp` are modelled as `""` (their values
are irrelevant to every claim). -/
structure UCPEvent where
  event_id : String := ""
  event_type : String := ""
  timestamp : String := ""
  app_name : String := ""
  merchant_host : String := ""
  platform_profile_url : String := ""
  transport : String := "rest"
  http_method : String := ""
  http_path : String := ""
  http_status_code : Option Int := none
  idempotency_key : String := ""
  request_id : String := ""
  checkout_session_id : Option String := none
  checkout_status : Option String := none
  order_id : Option String := none
  currency : Option String := none
  items_discount_amount : Option Int := none
  subtotal_amount : Option Int := none
  discount_amount : Option Int := none
  fulfillment_amount : Option Int := none
  tax_amount : Option Int := none
  fee_amount : Option Int := none
  total_amount : Option Int := none
  line_items_json : Option String := none
  line_item_count : Option Int := none
  payment_handler_id : Option String := none
  payment_instrument_type : Option String := none
  payment_brand : Option String := none
  ucp_version : Option String := none
  capabilities_json : Option String := none
  extensions_json : Option String := none
  identity_provider : Option String := none
  identity_scope : Option String := none
  fulfillment_type : Option String := none
  fulfillment_destination_country : Option String := none
  discount_codes_json : Option String := none
  discount_applied_json : Option String := none
  expires_at : Option String := none
  continue_url : Option String := none
  permalink_url : Option String := none
  error_code : Option String := none
  error_message : Option String := none
  error_severity : Option String := none
  messages_json : Option String := none
  latency_ms : Option Float := none
  custom_metadata_json : Option String := none

/-- Fields 1-12 of the record's `self.__dict__.items()` (split into four
parts only to keep each definition small; `UCPEvent.fields` concatenates
them in declaration order). -/
def UCPEvent.fieldsPart1 (e : UCPEvent) : List (String × Option BQVal) :=
  [("event_id", some (BQVal.str e.event_id)),
   ("event_type", some (BQVal.str e.event_type)),
   ("timestamp", some (BQVal.str e.timestamp)),
   ("app_name", some (BQVal.str e.app_name)),
   ("merchant_host", some (BQVal.str e.merchant_host)),
   ("platform_profile_url", some (BQVal.str e.platform_profile_url)),
   ("transport", some (BQVal.str e.transport)),
   ("http_method", some (BQVal.str e.http_method)),
   ("http_path", some (BQVal.str e.http_path)),
   ("http_status_code", e.http_status_code.map BQVal.int),
   ("idempotency_key", some (BQVal.str e.idempotency_key)),
   ("request_id", some (BQVal.str e.request_id))]

/-- Fields 13-24 of the record's `self.__dict__.items()`. -/
def UCPEvent.fieldsPart2 (e : UCPEvent) : List (String × Option BQVal) :=
  [("checkout_session_id", e.checkout_session_id.map BQVal.str),
   ("checkout_status", e.checkout_status.map BQVal.str),
   ("order_id", e.order_id.map BQVal.str),
   ("currency", e.currency.map BQVal.str),
   ("items_discount_amount", e.items_discount_amount.map BQVal.int),
   ("subtotal_amount", e.subtotal_amount.map BQVal.int),
   ("discount_amount", e.discount_amount.map BQVal.int),
   ("fulfillment_amount", e.fulfillment_amount.map BQVal.int),
   ("tax_amount", e.tax_amount.map BQVal.int),
   ("fee_amount", e.fee_amount.map BQVal.int),
   ("total_amount", e.total_amount.map BQVal.int),
   ("line_items_json", e.line_items_json.map BQVal.str)]

/-- Fields 25-36 of the record's `self.__dict__.items()`. -/
def UCPEvent.fieldsPart3 (e : UCPEvent) : List (String × Option BQVal) :=
  [("line_item_count", e.line_item_count.map BQVal.int),
   ("payment_handler_id", e.payment_handler_id.map BQVal.str),
   ("payment_instrument_type", e.payment_instrument_type.map BQVal.str),
   ("payment_brand", e.payment_brand.map BQVal.str),
   ("ucp_version", e.ucp_version.map BQVal.str),
   ("capabilities_json", e.capabilities_json.map BQVal.str),
   ("extensions_json", e.extensions_json.map BQVal.str),
   ("identity_provider", e.identity_provider.map BQVal.str),
   ("identity_scope", e.identity_scope.map BQVal.str),
   ("fulfillment_type", e.fulfillment_type.map BQVal.str),
   ("fulfillment_destination_country",
     e.fulfillment_destination_country.map BQVal.str),
   ("discount_codes_json", e.discount_codes_json.map BQVal.str)]

/-- Fields 37-46 of the record's `self.__dict__.items()`. -/
def UCPEvent.fieldsPart4 (e : UCPEvent) : List (String × Option BQVal) :=
  [("discount_applied_json", e.discount_applied_json.map BQVal.str),
   ("expires_at", e.expires_at.map BQVal.str),
   ("continue_url", e.continue_url.map BQVal.str),
   ("permalink_url", e.permalink_url.map BQVal.str),
   ("error_code", e.error_code.map BQVal.str),
   ("error_message", e.error_message.map BQVal.str),
   ("error_severity", e.error_severity.map BQVal.str),
   ("messages_json", e.messages_json.map BQVal.str),
   ("latency_ms", e.latency_ms.map BQVal.float),
   ("custom_metadata_json", e.custom_metadata_json.map BQVal.str)]

/-- The record's `self.__dict__.items()`: every field in declaration order,
mandatory fields always bound (`some`), `Optional` fields bound when set. -/
def UCPEvent.fields (e : UCPEvent) : List (String × Option BQVal) :=
  e.fieldsPart1 ++ e.fieldsPart2 ++ e.fieldsPart3 ++ e.fieldsPart4

/-- Serialize to a BigQuery-insertable dict, dropping unset (`None`) fields
(events.py lines 170-172). -/
def UCPEvent.to_bq_row (e : UCPEvent) : List (String × BQVal) :=
  e.fields.filterMap (fun p => p.2.map (fun v => (p.1, v)))

/-! ## Buffered writer (`AsyncBigQueryWriter` in writer.py)

The buffer is modelled as a list (oldest first); a row type parameter `ρ`
stands for the row dicts.  `enqueue` models lines 195-208 without the flush
trigger (the flush itself is modelled separately): the result is `none` when
the Python code would raise (`list.pop(0)` on an empty buffer, which happens
exactly when `max_buffer_size = 0` and the buffer is empty).  `flush` models
lines 210-234 as a function of the buffer at entry, the rows enqueued
concurrently while the sink call ran, and the sink outcome; the `Except`
result is `.error` only if an exception escapes to the caller. -/

namespace AsyncBigQueryWriter

/-- One `enqueue(row)` call (writer.py lines 195-208, buffer mutation only):
if the buffer is at or above `max_buffer_size`, pop the oldest entry
(raising, modelled `none`, if the buffer is empty), then append the row. -/
def enqueue (max_buffer_size : Nat) (buffer : List ρ) (row : ρ) :
    Option (List ρ) :=
  if max_buffer_size ≤ buffer.length then
    match buffer with
    | [] => none
    | _ :: rest => some (rest ++ [row])
  else some (buffer ++ [row])

/-- A sequence of `enqueue` calls with no intervening flush. -/
def enqueueAll (max_buffer_size : Nat) (buffer : List ρ) :
    List ρ → Option (List ρ)
  | [] => some buffer
  | row :: rows =>
    match enqueue max_buffer_size buffer row with
    | some b => enqueueAll max_buffer_size b rows
    | none => none

/-- One `flush()` call (writer.py lines 210-234).  `buffer` is the buffer
when the lock is first taken, `arrivals` the rows enqueued while the sink
insert ran, `sink` the insert outcome (`.error` = the insert raised).  The
returned value is the buffer afterwards; the failed batch is requeued in
front of the arrivals and truncated to `max_buffer_size`, and no exception
propagates (the result is always `.ok`). -/
def flush (max_buffer_size : Nat) (buffer arrivals : List ρ)
    (sink : Except String Unit) : Except String (List ρ) :=
  if buffer.isEmpty then .ok buffer
  else
    match sink with
    | .ok _ => .ok arrivals
    | .error _ =>
      let requeued := buffer ++ arrivals
      .ok (if max_buffer_size < requeued.length then
        requeued.take max_buffer_size else requeued)

end AsyncBigQueryWriter

example : AsyncBigQueryWriter.enqueue 3 [1, 2, 3] 4 = some [2, 3, 4] := rfl
example : AsyncBigQueryWriter.enqueue 3 [1, 2] 9 = some [1, 2, 9] := rfl
example : AsyncBigQueryWriter.enqueue 0 ([] : List Nat) 7 = none := rfl
example : AsyncBigQueryWriter.flush 3 [1, 2] [3, 4] (.error "net") =
    Except.ok [1, 2, 3] := rfl
example : AsyncBigQueryWriter.flush 9 [1, 2] [3, 4] (.error "net") =
    Except.ok [1, 2, 3, 4] := rfl
example : AsyncBigQueryWriter.flush 9 [1, 2] [3, 4] (.ok ()) =
    Except.ok [3, 4] := rfl

/-! ## Dictionary lemmas -/

open UCPResponseParser

theorem dGet?_nil (k : String) : dGet? [] k = none := rfl

theorem dGet?_cons (k0 : String) (v0 : JVal) (rest : JObj) (k : String) :
    dGet? ((k0, v0) :: rest) k =
      if k0 == k then some v0 else dGet? rest k := by
  by_cases h : k0 == k <;> simp [dGet?, List.find?, h]

theorem dropNulls_nil : dropNulls [] = [] := rfl

theorem dropNulls_cons (k0 : String) (v0 : JVal) (rest : JObj) :
    dropNulls ((k0, v0) :: rest) =
      if isNull v0 then dropNulls rest else (k0, v0) :: dropNulls rest := by
  by_cases h : isNull v0 <;> simp [dropNulls, List.filter, h]

theorem dGet?_dictSet_self (r : JObj) (k : String) (v : JVal) :
    dGet? (dictSet r k v) k = some v := by
  induction r with
  | nil => simp [dictSet, dGet?_cons]
  | cons p rest ih =>
    obtain ⟨k0, v0⟩ := p
    by_cases h : k0 == k
    · simp [dictSet, h, dGet?_cons]
    · simp [dictSet, h, dGet?_cons, ih]

theorem dGet?_dictSet_ne (r : JObj) (k : String) (v : JVal) (k' : String)
    (h : k' ≠ k) : dGet? (dictSet r k v) k' = dGet? r k' := by
  have hkk : (k == k') = false := beq_eq_false_iff_ne.2 (Ne.symm h)
  induction r with
  | nil => simp [dictSet, dGet?_cons, hkk]
  | cons p rest ih =>
    obtain ⟨k0, v0⟩ := p
    by_cases h0 : k0 == k
    · have hk0 : k0 = k := by simpa using h0
      subst hk0
      simp [dictSet, dGet?_cons, hkk]
    · simp [dictSet, h0, dGet?_cons, ih]

theorem dGet?_dropNulls_some (r : JObj) (k : String) (v : JVal)
    (h : dGet? r k = some v) (hv : isNull v = false) :
    dGet? (dropNulls r) k = some v := by
  induction r with
  | nil => simp [dGet?_nil] at h
  | cons p rest ih =>
    obtain ⟨k0, v0⟩ := p
    rw [dGet?_cons] at h
    rw [dropNulls_cons]
    by_cases h0 : k0 == k
    · rw [if_pos h0] at h
      obtain rfl : v0 = v := by simpa using h
      simp [hv, dGet?_cons, h0]
    · rw [if_neg (by simp [h0])] at h
      by_cases hn : isNull v0
      · simpa [hn] using ih h
      · simpa [hn, dGet?_cons, h0] using ih h

theorem dGet?_dropNulls_none (r : JObj) (k : String)
    (h : dGet? r k = none) : dGet? (dropNulls r) k = none := by
  induction r with
  | nil => simp [dropNulls_nil, dGet?_nil]
  | cons p rest ih =>
    obtain ⟨k0, v0⟩ := p
    rw [dGet?_cons] at h
    rw [dropNulls_cons]
    by_cases h0 : k0 == k
    · rw [if_pos h0] at h
      exact absurd h (by simp)
    · rw [if_neg (by simp [h0])] at h
      by_cases hn : isNull v0
      · simpa [hn] using ih h
      · simpa [hn, dGet?_cons, h0] using ih h

/-! ## Stage lemmas: which keys each block of `extract` can touch -/

theorem dGet?_stepId (fs r : JObj) (k : String) (h1 : k ≠ "order_id")
    (h2 : k ≠ "checkout_session_id") :
    dGet? (stepId fs r) k = dGet? r k := by
  simp only [stepId]
  repeat' split
  all_goals simp [dGet?_dictSet_ne _ _ _ _ h1, dGet?_dictSet_ne _ _ _ _ h2]

theorem dGet?_stepOrderIdKey (fs r : JObj) (k : String)
    (h1 : k ≠ "order_id") :
    dGet? (stepOrderIdKey fs r) k = dGet? r k := by
  simp only [stepOrderIdKey]
  repeat' split
  all_goals simp [dGet?_dictSet_ne _ _ _ _ h1]

theorem dGet?_stepOrderObj (fs r : JObj) (k : String) (h1 : k ≠ "order_id")
    (h2 : k ≠ "permalink_url") :
    dGet? (stepOrderObj fs r) k = dGet? r k := by
  simp only [stepOrderObj]
  repeat' split
  all_goals simp [dGet?_dictSet_ne _ _ _ _ h1, dGet?_dictSet_ne _ _ _ _ h2]

theorem dGet?_stepPermalink (fs r : JObj) (k : String)
    (h2 : k ≠ "permalink_url") :
    dGet? (stepPermalink fs r) k = dGet? r k := by
  simp only [stepPermalink]
  repeat' split
  all_goals simp [dGet?_dictSet_ne _ _ _ _ h2]

theorem dGet?_stepStatus_ne (fs r : JObj) (k : String)
    (h : k ≠ "checkout_status") :
    dGet? (stepStatus fs r) k = dGet? r k := by
  simp only [stepStatus]
  repeat' split
  all_goals simp [dGet?_dictSet_ne _ _ _ _ h]

theorem dGet?_stepCurrency (fs r : JObj) (k : String) (h : k ≠ "currency") :
    dGet? (stepCurrency fs r) k = dGet? r k := by
  simp only [stepCurrency]
  repeat' split
  all_goals simp [dGet?_dictSet_ne _ _ _ _ h]

theorem dGet?_totalsFold (items : List JVal) (r : JObj) (k : String)
    (h1 : k ≠ "items_discount_amount") (h2 : k ≠ "subtotal_amount")
    (h3 : k ≠ "discount_amount") (h4 : k ≠ "fulfillment_amount")
    (h5 : k ≠ "tax_amount") (h6 : k ≠ "fee_amount") (h7 : k ≠ "total_amount") :
    dGet? (totalsFold items r) k = dGet? r k := by
  induction items generalizing r with
  | nil => rfl
  | cons item rest ih =>
    simp only [totalsFold]
    repeat' split
    all_goals simp [ih, dGet?_dictSet_ne _ _ _ _ h1,
      dGet?_dictSet_ne _ _ _ _ h2, dGet?_dictSet_ne _ _ _ _ h3,
      dGet?_dictSet_ne _ _ _ _ h4, dGet?_dictSet_ne _ _ _ _ h5,
      dGet?_dictSet_ne _ _ _ _ h6, dGet?_dictSet_ne _ _ _ _ h7]

theorem dGet?_extractTotals (totals : JVal) (r : JObj) (k : String)
    (h1 : k ≠ "items_discount_amount") (h2 : k ≠ "subtotal_amount")
    (h3 : k ≠ "discount_amount") (h4 : k ≠ "fulfillment_amount")
    (h5 : k ≠ "tax_amount") (h6 : k ≠ "fee_amount") (h7 : k ≠ "total_amount") :
    dGet? (extractTotals totals r) k = dGet? r k := by
  simp only [extractTotals]
  repeat' split
  all_goals first
    | rfl
    | exact dGet?_totalsFold _ _ _ h1 h2 h3 h4 h5 h6 h7

theorem dGet?_stepLineItems (fs r : JObj) (k : String)
    (h1 : k ≠ "line_item_count") (h2 : k ≠ "line_items_json") :
    dGet? (stepLineItems fs r) k = dGet? r k := by
  simp only [stepLineItems]
  repeat' split
  all_goals simp [dGet?_dictSet_ne _ _ _ _ h1, dGet?_dictSet_ne _ _ _ _ h2]

theorem dGet?_extractUcpMetadata (ucp_meta : JVal) (r : JObj) (k : String)
    (h1 : k ≠ "ucp_version") (h2 : k ≠ "capabilities_json") :
    dGet? (extractUcpMetadata ucp_meta r) k = dGet? r k := by
  simp only [extractUcpMetadata]
  repeat' split
  all_goals simp [dGet?_dictSet_ne _ _ _ _ h1, dGet?_dictSet_ne _ _ _ _ h2]

theorem dGet?_extractDiscoveryPayment (payment : JVal) (r : JObj) (k : String)
    (h1 : k ≠ "payment_handler_id") :
    dGet? (extractDiscoveryPayment payment r) k = dGet? r k := by
  simp only [extractDiscoveryPayment]
  repeat' split
  all_goals simp [dGet?_dictSet_ne _ _ _ _ h1]

theorem dGet?_extractPaymentObj (payment : JVal) (r : JObj) (k : String)
    (h1 : k ≠ "payment_handler_id") (h2 : k ≠ "payment_instrument_type")
    (h3 : k ≠ "payment_brand") :
    dGet? (extractPaymentObj payment r) k = dGet? r k := by
  simp only [extractPaymentObj]
  repeat' split
  all_goals simp [dGet?_dictSet_ne _ _ _ _ h1, dGet?_dictSet_ne _ _ _ _ h2,
    dGet?_dictSet_ne _ _ _ _ h3]

theorem dGet?_extractPayment (fs r : JObj) (k : String)
    (h1 : k ≠ "payment_handler_id") (h2 : k ≠ "payment_instrument_type")
    (h3 : k ≠ "payment_brand") :
    dGet? (extractPayment fs r) k = dGet? r k := by
  simp only [extractPayment]
  repeat' split
  all_goals first
    | exact dGet?_extractPaymentObj _ _ _ h1 h2 h3
    | simp [dGet?_dictSet_ne _ _ _ _ h1, dGet?_dictSet_ne _ _ _ _ h2,
        dGet?_dictSet_ne _ _ _ _ h3]

theorem dGet?_extractFulfillment (fulfillment : JVal) (r : JObj) (k : String)
    (h1 : k ≠ "fulfillment_type")
    (h2 : k ≠ "fulfillment_destination_country") :
    dGet? (extractFulfillment fulfillment r) k = dGet? r k := by
  simp only [extractFulfillment]
  repeat' split
  all_goals simp [dGet?_dictSet_ne _ _ _ _ h1, dGet?_dictSet_ne _ _ _ _ h2]

theorem dGet?_extractDiscounts (discounts : JVal) (r : JObj) (k : String)
    (h1 : k ≠ "discount_codes_json") (h2 : k ≠ "discount_applied_json") :
    dGet? (extractDiscounts discounts r) k = dGet? r k := by
  simp only [extractDiscounts]
  repeat' split
  all_goals simp [dGet?_dictSet_ne _ _ _ _ h1, dGet?_dictSet_ne _ _ _ _ h2]

theorem dGet?_stepCheckoutMeta (fs r : JObj) (k : String)
    (h1 : k ≠ "expires_at") (h2 : k ≠ "continue_url") :
    dGet? (stepCheckoutMeta fs r) k = dGet? r k := by
  simp only [stepCheckoutMeta]
  repeat' split
  all_goals simp [dGet?_dictSet_ne _ _ _ _ h1, dGet?_dictSet_ne _ _ _ _ h2]

theorem dGet?_stepIdentity (fs r : JObj) (k : String)
    (h1 : k ≠ "identity_provider") (h2 : k ≠ "identity_scope") :
    dGet? (stepIdentity fs r) k = dGet? r k := by
  simp only [stepIdentity]
  repeat' split
  all_goals simp [dGet?_dictSet_ne _ _ _ _ h1, dGet?_dictSet_ne _ _ _ _ h2]

theorem dGet?_firstErrorMsg (messages : List JVal) (r : JObj) (k : String)
    (h1 : k ≠ "error_code") (h2 : k ≠ "error_message")
    (h3 : k ≠ "error_severity") :
    dGet? (firstErrorMsg messages r) k = dGet? r k := by
  induction messages generalizing r with
  | nil => rfl
  | cons msg rest ih =>
    simp only [firstErrorMsg]
    repeat' split
    all_goals simp [ih, dGet?_dictSet_ne _ _ _ _ h1,
      dGet?_dictSet_ne _ _ _ _ h2, dGet?_dictSet_ne _ _ _ _ h3]

theorem dGet?_stepMessages (fs r : JObj) (k : String)
    (h0 : k ≠ "messages_json") (h1 : k ≠ "error_code")
    (h2 : k ≠ "error_message") (h3 : k ≠ "error_severity") :
    dGet? (stepMessages fs r) k = dGet? r k := by
  simp only [stepMessages]
  repeat' split
  all_goals simp [dGet?_firstErrorMsg _ _ _ h1 h2 h3,
    dGet?_dictSet_ne _ _ _ _ h0]

theorem dGet?_linksFold (links : List JVal) (r : JObj) (k : String)
    (h1 : k ≠ "order_id") :
    dGet? (linksFold links r) k = dGet? r k := by
  induction links generalizing r with
  | nil => rfl
  | cons link rest ih =>
    simp only [linksFold]
    repeat' split
    all_goals simp [ih, dGet?_dictSet_ne _ _ _ _ h1]

theorem dGet?_stepLinks (fs r : JObj) (k : String) (h1 : k ≠ "order_id") :
    dGet? (stepLinks fs r) k = dGet? r k := by
  simp only [stepLinks]
  repeat' split
  all_goals first
    | rfl
    | exact dGet?_linksFold _ _ _ h1

/-! ## Characterizations used by the extractor claims -/

theorem dGet?_stepStatus_self (fs r : JObj) :
    dGet? (stepStatus fs r) "checkout_status" =
      if hasKey fs "status" && !hasKey fs "checkout_id" &&
          isCheckoutStatus (jGet fs "status") then some (jGet fs "status")
      else dGet? r "checkout_status" := by
  by_cases h1 : hasKey fs "status" <;>
    by_cases h2 : hasKey fs "checkout_id" <;>
    by_cases h3 : isCheckoutStatus (jGet fs "status") <;>
    simp [stepStatus, h1, h2, h3, dGet?_dictSet_self]

theorem isCheckoutStatus_not_null (v : JVal)
    (h : isCheckoutStatus v = true) : isNull v = false := by
  cases v <;> simp_all [isCheckoutStatus, isStrv, isNull]

theorem dGet?_extractRaw_checkout_status (fs : JObj) :
    dGet? (extractRaw fs) "checkout_status" =
      if hasKey fs "status" && !hasKey fs "checkout_id" &&
          isCheckoutStatus (jGet fs "status") then some (jGet fs "status")
      else none := by
  simp only [extractRaw]
  rw [dGet?_stepLinks _ _ _ (by decide),
    dGet?_stepMessages _ _ _ (by decide) (by decide) (by decide) (by decide),
    dGet?_stepIdentity _ _ _ (by decide) (by decide),
    dGet?_stepCheckoutMeta _ _ _ (by decide) (by decide),
    dGet?_extractDiscounts _ _ _ (by decide) (by decide),
    dGet?_extractFulfillment _ _ _ (by decide) (by decide),
    dGet?_extractPayment _ _ _ (by decide) (by decide) (by decide),
    dGet?_extractDiscoveryPayment _ _ _ (by decide),
    dGet?_extractUcpMetadata _ _ _ (by decide) (by decide),
    dGet?_stepLineItems _ _ _ (by decide) (by decide),
    dGet?_extractTotals _ _ _ (by decide) (by decide) (by decide) (by decide)
      (by decide) (by decide) (by decide),
    dGet?_stepCurrency _ _ _ (by decide),
    dGet?_stepStatus_self,
    dGet?_stepPermalink _ _ _ (by decide),
    dGet?_stepOrderObj _ _ _ (by decide) (by decide),
    dGet?_stepOrderIdKey _ _ _ (by decide),
    dGet?_stepId _ _ _ (by decide) (by decide)]
  rfl

theorem stepId_of_falsy (fs r : JObj)
    (h : pyTruthy (jGetD fs "id" (.str "")) = false) : stepId fs r = r := by
  simp [stepId, h]

theorem dGet?_extractRaw_checkout_session_id (fs : JObj)
    (h : pyTruthy (jGetD fs "id" (.str "")) = false) :
    dGet? (extractRaw fs) "checkout_session_id" = none := by
  simp only [extractRaw]
  rw [stepId_of_falsy fs _ h,
    dGet?_stepLinks _ _ _ (by decide),
    dGet?_stepMessages _ _ _ (by decide) (by decide) (by decide) (by decide),
    dGet?_stepIdentity _ _ _ (by decide) (by decide),
    dGet?_stepCheckoutMeta _ _ _ (by decide) (by decide),
    dGet?_extractDiscounts _ _ _ (by decide) (by decide),
    dGet?_extractFulfillment _ _ _ (by decide) (by decide),
    dGet?_extractPayment _ _ _ (by decide) (by decide) (by decide),
    dGet?_extractDiscoveryPayment _ _ _ (by decide),
    dGet?_extractUcpMetadata _ _ _ (by decide) (by decide),
    dGet?_stepLineItems _ _ _ (by decide) (by decide),
    dGet?_extractTotals _ _ _ (by decide) (by decide) (by decide) (by decide)
      (by decide) (by decide) (by decide),
    dGet?_stepCurrency _ _ _ (by decide),
    dGet?_stepStatus_ne _ _ _ (by decide),
    dGet?_stepPermalink _ _ _ (by decide),
    dGet?_stepOrderObj _ _ _ (by decide) (by decide),
    dGet?_stepOrderIdKey _ _ _ (by decide)]
  rfl

/-! ## Claim theorems: field extractor -/

/-- Claim C6: `extract` includes the key `checkout_status` (with value
`body["status"]`) exactly when `checkout_id` is absent from the body and the
status value belongs to the fixed 6-value checkout-status vocabulary; in
every other case the returned mapping has no `checkout_status` key. -/
theorem claim_C6 (fs : JObj) (v : JVal) :
    dGet? (UCPResponseParser.extract (.obj fs)) "checkout_status" = some v ↔
      (hasKey fs "status" = true ∧ hasKey fs "checkout_id" = false ∧
        jGet fs "status" = v ∧ isCheckoutStatus v = true) := by
  by_cases hemp : fs.isEmpty
  · obtain rfl : fs = [] := List.isEmpty_iff.1 hemp
    constructor
    · intro h
      simp [UCPResponseParser.extract, dGet?_nil] at h
    · rintro ⟨hs, -, -, -⟩
      simp [hasKey] at hs
  · have hext : UCPResponseParser.extract (.obj fs) =
        dropNulls (extractRaw fs) := by
      simp [UCPResponseParser.extract, hemp]
    rw [hext]
    have hraw := dGet?_extractRaw_checkout_status fs
    cases hc : (hasKey fs "status" && !hasKey fs "checkout_id" &&
        isCheckoutStatus (jGet fs "status")) with
    | true =>
      rw [hc, if_pos rfl] at hraw
      have hparts := hc
      rw [Bool.and_eq_true, Bool.and_eq_true] at hparts
      obtain ⟨⟨hs, hcid⟩, hcs⟩ := hparts
      have hnn : isNull (jGet fs "status") = false :=
        isCheckoutStatus_not_null _ hcs
      rw [dGet?_dropNulls_some _ _ _ hraw hnn]
      constructor
      · intro hv
        have hv' : jGet fs "status" = v := by
          injection hv
        exact ⟨hs, by simpa using hcid, hv', hv' ▸ hcs⟩
      · rintro ⟨-, -, rfl, -⟩
        rfl
    | false =>
      rw [hc] at hraw
      simp only [Bool.false_eq_true, if_false] at hraw
      rw [dGet?_dropNulls_none _ _ hraw]
      constructor
      · intro h
        exact absurd h (by simp)
      · rintro ⟨hs, hcid, rfl, hcs⟩
        rw [hs, hcid, hcs] at hc
        simp at hc

/-- Claim C10: the id/checkout_id heuristic fires only for a truthy `id`; a
falsy `id` (absent, empty, zero or null) sets nothing in that block, so the
result carries no `checkout_session_id`, and in particular
`extract({"id": "", "checkout_id": "c1"})` is empty. -/
theorem claim_C10 :
    (∀ fs r : JObj, pyTruthy (jGetD fs "id" (.str "")) = false →
      stepId fs r = r) ∧
    (∀ fs : JObj, pyTruthy (jGetD fs "id" (.str "")) = false →
      dGet? (UCPResponseParser.extract (.obj fs)) "checkout_session_id"
        = none) ∧
    UCPResponseParser.extract
      (.obj [("id", .str ""), ("checkout_id", .str "c1")]) = [] := by
  refine ⟨stepId_of_falsy, ?_, rfl⟩
  intro fs h
  by_cases hemp : fs.isEmpty
  · obtain rfl : fs = [] := List.isEmpty_iff.1 hemp
    rfl
  · have hext : UCPResponseParser.extract (.obj fs) =
        dropNulls (extractRaw fs) := by
      simp [UCPResponseParser.extract, hemp]
    rw [hext]
    exact dGet?_dropNulls_none _ _ (dGet?_extractRaw_checkout_session_id fs h)

/-- Claim C8: `extract` is total; it returns the empty mapping for null and
for every non-mapping input, in particular `extract(None) == {}` and
`extract({}) == {}` (totality on mapping inputs is by construction of
`extract`: every sub-structure access is guarded). -/
theorem claim_C8 :
    UCPResponseParser.extract .null = [] ∧
    UCPResponseParser.extract (.obj []) = [] ∧
    ∀ v : JVal, isObjB v = false → UCPResponseParser.extract v = [] := by
  refine ⟨rfl, rfl, ?_⟩
  intro v hv
  cases v with
  | obj fields => simp [isObjB] at hv
  | null => rfl
  | bool b => rfl
  | num n => rfl
  | str s => rfl
  | arr items => rfl

/-- Claim C8 witness: a concrete non-mapping input. -/
theorem claim_C8_witness :
    isObjB (.num 5) = false ∧ UCPResponseParser.extract (.num 5) = [] :=
  ⟨rfl, claim_C8.2.2 (.num 5) rfl⟩

/-- Claim C10 witness: the concrete falsy-id body from the claim. -/
theorem claim_C10_witness :
    pyTruthy (jGetD [("id", .str ""), ("checkout_id", .str "c1")] "id"
      (.str "")) = false ∧
    dGet? (UCPResponseParser.extract
      (.obj [("id", .str ""), ("checkout_id", .str "c1")]))
      "checkout_session_id" = none :=
  ⟨rfl, claim_C10.2.1 [("id", .str ""), ("checkout_id", .str "c1")] rfl⟩

/-- Claim C2 (code bug): in the discovery-profile shape
`{"payment": {"handlers": [{"name": "h1"}]}}` the spec requires
`payment_handler_id = "h1"` (first handler's `id` or, failing that, `name`),
but `_extract_payment` runs after `_extract_discovery_payment` and
overwrites the value with `handlers[0].get("id") = None`, which the final
comprehension then drops: the extracted mapping is empty.  With an `id`
present the overwrite is invisible. -/
theorem claim_C2_eval :
    UCPResponseParser.extract (.obj [("payment", .obj [("handlers",
      .arr [.obj [("name", .str "h1")]])])]) = [] ∧
    dGet? (UCPResponseParser.extract (.obj [("payment", .obj [("handlers",
      .arr [.obj [("id", .str "h0"), ("name", .str "h1")]])])]))
      "payment_handler_id" = some (.str "h0") := ⟨rfl, rfl⟩

/-! ## Claim theorems: classifier -/

theorem isStrv_eq (v : JVal) (s : String) :
    isStrv v s = true ↔ v = .str s := by
  cases v <;> simp [isStrv]

/-- The five `status` strings recognized by the partner-webhook branch. -/
def webhookStatusRecognized (st : JVal) : Bool :=
  isStrv st "shipped" || isStrv st "delivered" || isStrv st "returned" ||
  isStrv st "canceled" || isStrv st "cancelled"

/-- Claim C1 counterexample: `/webhooks/orders` contains `/webhooks/`, yet
`classify("POST", "/webhooks/orders", 500, None)` is `order_created`, not
`error` — the `/orders` rule runs before the webhook rule. -/
theorem claim_C1_counterexample :
    strContains "/webhooks/orders" "/webhooks/" = true ∧
    UCPResponseParser.classify "POST" "/webhooks/orders" 500 none none =
      .order_created ∧
    UCPResponseParser.classify "POST" "/webhooks/orders" 500 none none ≠
      .error := ⟨by decide, by decide, by decide⟩

/-- Claim C1 (amended): for every path matching `/webhooks?/` that no earlier
structural rule captures, `classify` returns `error` whenever
`status_code >= 400` (before any other webhook logic); otherwise, on a path
matching `/webhooks?/partners/{id}/events/order`, it classifies by the
`status` of the request body when that is a nonempty mapping, else of the
response body: shipped/delivered/returned/canceled|cancelled map to the
corresponding order event, anything else (or no usable body) to
`order_updated`; and the claim's concrete example yields `order_shipped`. -/
theorem claim_C1_amended :
    (∀ (method p : String) (sc : Int) (rb qb : Option JObj),
      mWellKnown (pyRstripSlash p) = false →
      mCsRoot (pyRstripSlash p) = false →
      mCsComplete (pyRstripSlash p) = false →
      mCsCancel (pyRstripSlash p) = false →
      mCsId (pyRstripSlash p) = false →
      mCartsRoot (pyRstripSlash p) = false →
      mCartsCancel (pyRstripSlash p) = false →
      mCartsId (pyRstripSlash p) = false →
      mOrders (pyRstripSlash p) = false →
      mWebhook (pyRstripSlash p) = true →
      ((400 ≤ sc →
        UCPResponseParser.classify method p sc rb qb = .error) ∧
       (sc < 400 → mPartnerOrder (pyRstripSlash p) = true →
        UCPResponseParser.classify method p sc rb qb =
          UCPResponseParser.webhookOrderEvt
            (if UCPResponseParser.truthyObj qb = true then qb else rb)))) ∧
    (∀ bl : JObj, bl.isEmpty = false →
      (isStrv (jGetD bl "status" (.str "")) "shipped" = true →
        UCPResponseParser.webhookOrderEvt (some bl) = .order_shipped) ∧
      (isStrv (jGetD bl "status" (.str "")) "delivered" = true →
        UCPResponseParser.webhookOrderEvt (some bl) = .order_delivered) ∧
      (isStrv (jGetD bl "status" (.str "")) "returned" = true →
        UCPResponseParser.webhookOrderEvt (some bl) = .order_returned) ∧
      ((isStrv (jGetD bl "status" (.str "")) "canceled" ||
        isStrv (jGetD bl "status" (.str "")) "cancelled") = true →
        UCPResponseParser.webhookOrderEvt (some bl) = .order_canceled) ∧
      (webhookStatusRecognized (jGetD bl "status" (.str "")) = false →
        UCPResponseParser.webhookOrderEvt (some bl) = .order_updated)) ∧
    UCPResponseParser.webhookOrderEvt none = .order_updated ∧
    UCPResponseParser.webhookOrderEvt (some []) = .order_updated ∧
    UCPResponseParser.classify "POST" "/webhooks/partners/p1/events/order"
      200 (some [("status", .str "ok")])
      (some [("id", .str "o1"), ("checkout_id", .str "c1"),
        ("status", .str "shipped")]) = .order_shipped := by
  refine ⟨?_, ?_, rfl, rfl, by decide⟩
  · intro method p sc rb qb hwk hcs hcc hcx hci hcr hck hcd hord hweb
    constructor
    · intro hsc
      have hok : (¬sc = 0 ∧ 400 ≤ sc) := by constructor <;> omega
      simp only [UCPResponseParser.classify, hwk, hcs, hcc, hcx, hci, hcr,
        hck, hcd, hord, hweb]
      simp [hok]
    · intro hsc hpartner
      have hno : ¬(¬sc = 0 ∧ 400 ≤ sc) := by omega
      simp only [UCPResponseParser.classify, hwk, hcs, hcc, hcx, hci, hcr,
        hck, hcd, hord, hweb, hpartner]
      simp [hno]
  · intro bl hne
    refine ⟨?_, ?_, ?_, ?_, ?_⟩
    · intro h
      rw [isStrv_eq] at h
      simp [UCPResponseParser.webhookOrderEvt, hne, h, isStrv]
    · intro h
      rw [isStrv_eq] at h
      simp [UCPResponseParser.webhookOrderEvt, hne, h, isStrv]
    · intro h
      rw [isStrv_eq] at h
      simp [UCPResponseParser.webhookOrderEvt, hne, h, isStrv]
    · intro h
      rw [Bool.or_eq_true] at h
      rcases h with h' | h' <;> rw [isStrv_eq] at h' <;>
        simp [UCPResponseParser.webhookOrderEvt, hne, h', isStrv]
    · intro h
      simp only [webhookStatusRecognized, Bool.or_eq_false_iff] at h
      obtain ⟨⟨⟨⟨h1, h2⟩, h3⟩, h4⟩, h5⟩ := h
      simp [UCPResponseParser.webhookOrderEvt, hne, h1, h2, h3, h4, h5]

/-- Claim C1 witness: concrete instances of the amended claim (a partner
webhook path with a 5xx status classifies as `error`). -/
theorem claim_C1_witness :
    UCPResponseParser.classify "POST" "/webhooks/partners/p1/events/order"
      500 none none = .error :=
  (claim_C1_amended.1 "POST" "/webhooks/partners/p1/events/order" 500 none
    none (by decide) (by decide) (by decide) (by decide) (by decide)
    (by decide) (by decide) (by decide) (by decide) (by decide)).1
    (by decide)

/-- Disjunction of every structural path pattern of `classify` (rules 1-14). -/
def structuralPathMatch (q : String) : Bool :=
  mWellKnown q || mCsRoot q || mCsComplete q || mCsCancel q || mCsId q ||
  mCartsRoot q || mCartsCancel q || mCartsId q || mOrders q || mWebhook q ||
  mIdentityOauth q || strContains q "/simulate-shipping"

/-- Claim C3: with `status_code >= 400`, a structurally matched path (e.g.
`GET /checkout-sessions/{id}`) keeps its structural event type, while a path
matching none of the structural rules classifies as `error`. -/
theorem claim_C3 :
    (∀ (p : String) (sc : Int) (rb qb : Option JObj),
      mWellKnown (pyRstripSlash p) = false →
      mCsId (pyRstripSlash p) = true →
      UCPResponseParser.classify "GET" p sc rb qb =
        .checkout_session_get) ∧
    (∀ (m p : String) (sc : Int) (rb qb : Option JObj),
      structuralPathMatch (pyRstripSlash p) = false → 400 ≤ sc →
      UCPResponseParser.classify m p sc rb qb = .error) := by
  constructor
  · intro p sc rb qb h1 h2
    have hGET : pyUpper "GET" = "GET" := rfl
    have eGP : ¬("GET" : String) = "POST" := by decide
    have eGU : ¬("GET" : String) = "PUT" := by decide
    simp only [UCPResponseParser.classify, h1, h2, hGET]
    simp [eGP, eGU]
  · intro m p sc rb qb h hsc
    simp only [structuralPathMatch, Bool.or_eq_false_iff] at h
    obtain ⟨⟨⟨⟨⟨⟨⟨⟨⟨⟨⟨hwk, hcs⟩, hcc⟩, hcx⟩, hci⟩, hcr⟩, hck⟩, hcd⟩, hord⟩,
      hweb⟩, hident⟩, hsim⟩ := h
    have hne : ¬sc = 0 := by omega
    simp only [UCPResponseParser.classify, hwk, hcs, hcc, hcx, hci, hcr,
      hck, hcd, hord, hweb, hident, hsim]
    simp [hne, hsc]

/-- Claim C3 witness: a 500 on `GET /checkout-sessions/abc` is still a
`checkout_session_get`; a 500 on an unmatched path is an `error`. -/
theorem claim_C3_witness :
    UCPResponseParser.classify "GET" "/checkout-sessions/abc" 500 none none =
      .checkout_session_get ∧
    UCPResponseParser.classify "POST" "/some/unknown/path" 500 none none =
      .error :=
  ⟨claim_C3.1 "/checkout-sessions/abc" 500 none none (by decide) (by decide),
   claim_C3.2 "POST" "/some/unknown/path" 500 none none (by decide)
     (by decide)⟩

/-! ## Claim theorems: buffered writer -/

open AsyncBigQueryWriter

/-- With a positive buffer bound, a run of `enqueue` calls never raises and
the buffer is always the suffix of everything seen, truncated at the front
to the bound. -/
theorem enqueueAll_eq_drop {α : Type} (max : Nat) (hm : 0 < max) :
    ∀ (rows : List α) (buf : List α), buf.length ≤ max →
      enqueueAll max buf rows =
        some ((buf ++ rows).drop (buf.length + rows.length - max)) := by
  intro rows
  induction rows with
  | nil =>
    intro buf hb
    simp [enqueueAll, Nat.sub_eq_zero_of_le hb]
  | cons r rs ih =>
    intro buf hb
    simp only [enqueueAll, enqueue]
    by_cases hfull : max ≤ buf.length
    · have hlen : buf.length = max := le_antisymm hb hfull
      rw [if_pos hfull]
      cases buf with
      | nil =>
        exfalso
        simp at hlen
        omega
      | cons b bs =>
        show enqueueAll max (bs ++ [r]) rs = _
        rw [ih (bs ++ [r]) (by simp at hlen ⊢; omega)]
        congr 1
        rw [List.append_assoc, List.singleton_append]
        simp at hlen
        have h1 : (bs ++ [r]).length + rs.length - max = rs.length := by
          simp
          omega
        have h2 : (b :: bs).length + (r :: rs).length - max
            = rs.length + 1 := by
          simp
          omega
        rw [h1, h2]
        rfl
    · rw [if_neg hfull]
      show enqueueAll max (buf ++ [r]) rs = _
      rw [ih (buf ++ [r]) (by simp; omega)]
      congr 1
      rw [List.append_assoc, List.singleton_append]
      congr 1
      simp
      omega

/-- Claim C4 counterexample: with `max_buffer_size = 0` the very first
`enqueue` into the empty buffer executes `list.pop(0)` on an empty list and
raises `IndexError` (modelled `none`), so the claimed final buffer
`rows.drop k` is never produced. -/
theorem claim_C4_counterexample :
    enqueueAll 0 ([] : List Nat) [7] = none ∧
    enqueueAll 0 ([] : List Nat) [7] ≠ some (([7] : List Nat).drop 1) :=
  ⟨rfl, by decide⟩

/-- Claim C4 (amended): for `max_buffer_size > 0` and `k > 0`, enqueuing
`max_buffer_size + k` records into an empty buffer with no intervening flush
succeeds, leaves exactly the `max_buffer_size` newest records (the `k`
oldest are evicted in FIFO order), and after every prefix of the enqueues
the buffer never exceeds the bound. -/
theorem claim_C4 {α : Type} (max k : Nat) (rows : List α) (hm : 0 < max)
    (hk : 0 < k) (hlen : rows.length = max + k) :
    enqueueAll max ([] : List α) rows = some (rows.drop k) ∧
    (rows.drop k).length = max ∧
    (∀ i, i ≤ rows.length → ∃ b,
      enqueueAll max ([] : List α) (rows.take i) = some b ∧
      b.length ≤ max) := by
  refine ⟨?_, ?_, ?_⟩
  · rw [enqueueAll_eq_drop max hm rows [] (by simp)]
    congr 2
    simp
    omega
  · rw [List.length_drop]
    omega
  · intro i hi
    refine ⟨(rows.take i).drop (i - max), ?_, ?_⟩
    · rw [enqueueAll_eq_drop max hm (rows.take i) [] (by simp)]
      congr 2
      simp
      rw [Nat.min_eq_left (by omega)]
    · rw [List.length_drop, List.length_take]
      omega

/-- Claim C4 witness: three records through a bound of two. -/
theorem claim_C4_witness :
    enqueueAll 2 ([] : List Nat) [10, 20, 30] = some [20, 30] := by
  have h := claim_C4 2 1 ([10, 20, 30] : List Nat) (by decide) (by decide)
    (by decide)
  simpa using h.1

/-- Claim C5: `flush` never lets the sink exception escape, and on a sink
failure the whole failed batch is put back in front of whatever arrived
during the flush, truncated to the buffer bound. -/
theorem claim_C5 {α : Type} (max : Nat) (buf arrivals : List α)
    (e : String) :
    (∀ sink : Except String Unit, ∃ b,
      flush max buf arrivals sink = .ok b) ∧
    (buf ≠ [] → flush max buf arrivals (.error e) =
      .ok ((buf ++ arrivals).take max)) := by
  constructor
  · intro sink
    unfold flush
    split
    · exact ⟨buf, rfl⟩
    · cases sink with
      | ok u => exact ⟨arrivals, rfl⟩
      | error s =>
        refine ⟨_, rfl⟩
  · intro hne
    unfold flush
    rw [if_neg (by simpa using hne)]
    simp only []
    split
    · rfl
    · rw [List.take_of_length_le (by omega)]

/-- Claim C5 witness: a failing flush with bound 3, batch `[1, 2]` and
arrivals `[3, 4]` requeues `[1, 2, 3]`. -/
theorem claim_C5_witness :
    flush 3 ([1, 2] : List Nat) [3, 4] (.error "net") = .ok [1, 2, 3] := by
  have h := (claim_C5 3 ([1, 2] : List Nat) [3, 4] "net").2 (by decide)
  simpa using h

/-- Claim C9: when the requeued batch plus the arrivals overflow the bound,
the truncation keeps the first `max_buffer_size` entries: the requeued batch
survives whole at the front and the newest arrivals are silently dropped —
the opposite end from the drop-oldest eviction in `enqueue`. -/
theorem claim_C9 {α : Type} (max : Nat) (buf arrivals : List α) (e : String)
    (hne : buf ≠ []) (hfit : buf.length ≤ max)
    (hover : max < buf.length + arrivals.length) :
    flush max buf arrivals (.error e) =
      .ok (buf ++ arrivals.take (max - buf.length)) ∧
    (buf ++ arrivals.take (max - buf.length)).length = max ∧
    (buf ++ arrivals.take (max - buf.length)) ++
      arrivals.drop (max - buf.length) = buf ++ arrivals := by
  have htake : (buf ++ arrivals).take max =
      buf ++ arrivals.take (max - buf.length) := by
    rw [List.take_append_eq_append_take, List.take_of_length_le hfit]
  refine ⟨?_, ?_, ?_⟩
  · rw [(claim_C5 max buf arrivals e).2 hne, htake]
  · rw [List.length_append, List.length_take]
    omega
  · rw [List.append_assoc, List.take_append_drop]

/-- Claim C9 witness: bound 3, batch `[1, 2]`, arrivals `[3, 4]`: the
buffer afterwards is `[1, 2, 3]` and the newest arrival `4` is dropped. -/
theorem claim_C9_witness :
    flush 3 ([1, 2] : List Nat) [3, 4] (.error "boom") =
      .ok ([1, 2] ++ [3, 4].take 1) :=
  (claim_C9 3 ([1, 2] : List Nat) [3, 4] "boom" (by decide) (by decide)
    (by decide)).1

/-! ## Claim theorems: event record -/

theorem keyedUnique {α β : Type} :
    ∀ (l : List (α × β)), (l.map Prod.fst).Nodup →
      ∀ (k : α) (a b : β), (k, a) ∈ l → (k, b) ∈ l → a = b := by
  intro l
  induction l with
  | nil =>
    intro _ k a b ha _
    cases ha
  | cons p rest ih =>
    intro hnd k a b ha hb
    rw [List.map_cons, List.nodup_cons] at hnd
    rcases List.mem_cons.1 ha with h1 | h1
    · rcases List.mem_cons.1 hb with h2 | h2
      · exact congrArg Prod.snd (h1.trans h2.symm)
      · exfalso
        have hk : k ∈ rest.map Prod.fst := List.mem_map_of_mem Prod.fst h2
        rw [← h1] at hnd
        exact hnd.1 hk
    · rcases List.mem_cons.1 hb with h2 | h2
      · exfalso
        have hk : k ∈ rest.map Prod.fst := List.mem_map_of_mem Prod.fst h1
        rw [← h2] at hnd
        exact hnd.1 hk
      · exact ih hnd.2 k a b h1 h2

theorem fields_map_fst (e : UCPEvent) :
    (UCPEvent.fields e).map Prod.fst =
      ["event_id", "event_type", "timestamp", "app_name", "merchant_host",
       "platform_profile_url", "transport", "http_method", "http_path",
       "http_status_code", "idempotency_key", "request_id",
       "checkout_session_id", "checkout_status", "order_id", "currency",
       "items_discount_amount", "subtotal_amount", "discount_amount",
       "fulfillment_amount", "tax_amount", "fee_amount", "total_amount",
       "line_items_json", "line_item_count", "payment_handler_id",
       "payment_instrument_type", "payment_brand", "ucp_version",
       "capabilities_json", "extensions_json", "identity_provider",
       "identity_scope", "fulfillment_type",
       "fulfillment_destination_country", "discount_codes_json",
       "discount_applied_json", "expires_at", "continue_url",
       "permalink_url", "error_code", "error_message", "error_severity",
       "messages_json", "latency_ms", "custom_metadata_json"] := rfl

theorem fields_keys_nodup (e : UCPEvent) :
    ((UCPEvent.fields e).map Prod.fst).Nodup := by
  rw [fields_map_fst]
  decide

/-- Claim C7: the serialized row of a record contains the pair `(k, v)`
exactly when field `k` of the record is set to `v`; an unset (`None`) field
never appears in the row. -/
theorem claim_C7 (e : UCPEvent) (k : String) (v : BQVal) :
    ((k, v) ∈ UCPEvent.to_bq_row e ↔ (k, some v) ∈ UCPEvent.fields e) ∧
    ((k, none) ∈ UCPEvent.fields e → (k, v) ∉ UCPEvent.to_bq_row e) := by
  have hiff : (k, v) ∈ UCPEvent.to_bq_row e ↔
      (k, some v) ∈ UCPEvent.fields e := by
    constructor
    · intro h
      rcases List.mem_filterMap.1 h with ⟨⟨k0, o⟩, hmem, heq⟩
      cases o with
      | none => simp [UCPEvent.to_bq_row] at heq
      | some w =>
        simp only [Option.map_some'] at heq
        have hk : k0 = k := congrArg Prod.fst (Option.some.inj heq)
        have hw : w = v := congrArg Prod.snd (Option.some.inj heq)
        rw [← hk, ← hw]
        exact hmem
    · intro h
      exact List.mem_filterMap.2 ⟨(k, some v), h, rfl⟩
  refine ⟨hiff, ?_⟩
  intro hnone hmem
  have h2 : (k, some v) ∈ UCPEvent.fields e := hiff.1 hmem
  have h3 := keyedUnique (UCPEvent.fields e) (fields_keys_nodup e) k
    (none : Option BQVal) (some v) hnone h2
  simp at h3

/-- Claim C7 witness: in a default record `checkout_status` is unset and its
serialized row has no `checkout_status` entry. -/
theorem claim_C7_witness :
    ("checkout_status", (none : Option BQVal)) ∈ UCPEvent.fields {} ∧
    ("checkout_status", BQVal.str "completed") ∉ UCPEvent.to_bq_row {} := by
  have h2 : ("checkout_status", (none : Option BQVal)) ∈
      UCPEvent.fieldsPart2 {} :=
    List.mem_cons_of_mem _ (List.mem_cons_self _ _)
  have hmem : ("checkout_status", (none : Option BQVal)) ∈
      UCPEvent.fields {} :=
    List.mem_append_left _ (List.mem_append_left _
      (List.mem_append_right _ h2))
  exact ⟨hmem,
    (claim_C7 {} "checkout_status" (BQVal.str "completed")).2 hmem⟩
